import Mathlib

/-
A shallow embedding of the cxxhttp HTTP/1.x protocol engine core:
the transport-agnostic session data record (`http-session.h`) and the
asynchronous I/O flow controller (`http-flow.h`).

Pure C++ member functions become Lean functions on a `sessionData`
record; the flow controller's callbacks become explicit state-passing
functions that additionally return the list of I/O actions they issue
(writes, reads, connection shutdown).  Machine integers (`std::size_t`)
are modelled as `Nat`, with an explicit `% 2 ^ 64` where the source
relies on unsigned wraparound (`remainingBytes`).

Components of the repository that the session/flow code uses but whose
sources are external to the core (the case-insensitive header map
`parser<headers>`, the request/status line parsers, the negotiation
algorithm, the error-reply helper, the version identifier) are modelled
from the specification; each such definition carries a doc comment
saying so.
-/

set_option autoImplicit false

namespace cxxhttp

namespace http

/-! ## Header maps

Modelled from the spec: `headers` is a case-insensitive key→value
mapping (header names compared ignoring case) backed by `std::map`.
We represent it as an association list; case-insensitive comparison is
by `String.toLower`.  `std::map::insert` does not overwrite an existing
key (first insertion wins), matching the source comments "unless
overriden" (defaultClientHeaders) and "iff they haven't been
overridden" (generateReply). -/

/-- A header map: association list of name/value pairs with
case-insensitive name lookup. -/
abbrev headers := List (String × String)

/-- The case-folded form of a header name, used for the
case-insensitive comparisons of the header map. -/
def lowerKey (s : String) : List Char := s.data.map Char.toLower

/-- Byte-wise ordering on case-folded header names (the `std::map`
comparator after case folding). -/
def keyLT : List Char → List Char → Bool
  | [], [] => false
  | [], _ :: _ => true
  | _ :: _, [] => false
  | a :: s, b :: t =>
    if a.toNat < b.toNat then true
    else if b.toNat < a.toNat then false
    else keyLT s t

/-- Case-insensitive lookup, first match wins
(`std::map` find/`operator[]` read with the case-insensitive
comparator). -/
def hdrFind : headers → String → Option String
  | [], _ => none
  | (k, v) :: t, q => if lowerKey k = lowerKey q then some v else hdrFind t q

/-- Place a pair at its ordered position (the `std::map` keeps keys
sorted by the case-insensitive comparator). -/
def sortedInsert : headers → String × String → headers
  | [], p => [p]
  | q :: t, p =>
    if keyLT (lowerKey q.1) (lowerKey p.1) then q :: sortedInsert t p
    else p :: q :: t

/-- `std::map::insert` of a single pair: a no-op when the key is
already present (case-insensitively), otherwise an ordered insert. -/
def hdrInsert1 (h : headers) (k v : String) : headers :=
  if (hdrFind h k).isSome then h else sortedInsert h (k, v)

/-- `parser<headers>::insert(const headers &)`: range insert, which
inserts each pair that is not already present and never overwrites.
Modelled from the spec (the header-map parser is external to the core);
the no-overwrite behaviour is fixed by the source comments quoted
above. -/
def hdrInsert (h : headers) (extra : headers) : headers :=
  extra.foldl (fun acc p => hdrInsert1 acc p.1 p.2) h

/-- `header[name] = value`: overwrite the value of an existing entry
(keeping its original spelling of the name) or add a new entry. -/
def hdrSet : headers → String → String → headers
  | [], k, v => [(k, v)]
  | q :: t, k, v =>
    if lowerKey q.1 = lowerKey k then (q.1, v) :: t else q :: hdrSet t k v

/-- `parser<headers>::append(name, value)`: Vary-style append.
Modelled from the spec: sets the header when absent or empty, otherwise
appends the new value after a comma. -/
def hdrAppend (h : headers) (k v : String) : headers :=
  match hdrFind h k with
  | none => hdrSet h k v
  | some old => if old = "" then hdrSet h k v else hdrSet h k (old ++ "," ++ v)

/-- `std::string(parser<headers>)`: serialise each entry as
`Name: value\r\n`. -/
def hdrSerialize : headers → String
  | [] => ""
  | (k, v) :: t => k ++ ": " ++ v ++ "\r\n" ++ hdrSerialize t

/-! ## Protocol versions and line parsing

Modelled from the spec: request-line and status-line parsers are
external to the core; they expose a validity check and a protocol
version, and the wire format is the standard HTTP/1.x
`METHOD SP target SP HTTP/maj.min` request line and
`HTTP/maj.min SP code SP reason` status line. -/

/-- `http::version` comparison `a >= b` (lexicographic on
major/minor). -/
def versionGE (a b : Nat × Nat) : Bool :=
  b.1 < a.1 || (a.1 = b.1 && b.2 ≤ a.2)

/-- Split a character list on a separator character. -/
def splitOnChar (c : Char) : List Char → List (List Char)
  | [] => [[]]
  | a :: t =>
    match splitOnChar c t with
    | [] => if a = c then [[], []] else [[a]]
    | g :: gs => if a = c then [] :: g :: gs else (a :: g) :: gs

/-- Drop one trailing carriage return, as the line parsers accept an
optional `\r` before the newline. -/
def dropCR (l : List Char) : List Char :=
  if l.getLast? = some '\r' then l.dropLast else l

/-- Accumulate decimal digits into a number. -/
def digitsValAux : List Char → Nat → Option Nat
  | [], acc => some acc
  | c :: t, acc =>
    if c.isDigit then digitsValAux t (acc * 10 + (c.toNat - '0'.toNat)) else none

/-- Parse a non-empty decimal digit string. -/
def digitsVal : List Char → Option Nat
  | [] => none
  | c :: t => digitsValAux (c :: t) 0

/-- Parse a `HTTP/maj.min` protocol token. -/
def parseVersion : List Char → Option (Nat × Nat)
  | 'H' :: 'T' :: 'T' :: 'P' :: '/' :: rest =>
    match splitOnChar '.' rest with
    | [a, b] =>
      match digitsVal a, digitsVal b with
      | some x, some y => some (x, y)
      | _, _ => none
    | _ => none
  | _ => none

/-- Parsed request line: method, resource, protocol version and a
validity flag. -/
structure requestLine where
  method : String
  resource : String
  version : Nat × Nat
  valid : Bool
deriving DecidableEq

/-- The parse result for a line that does not match the request-line
grammar; the version keeps its default value. -/
def invalidRequestLine : requestLine :=
  { method := "", resource := "", version := (0, 0), valid := false }

/-- Modelled from the spec: the external request-line parser.  A valid
request line is `METHOD SP target SP HTTP/maj.min` with an uppercase
method, optionally ending in `\r`. -/
def parseRequestLine (line : List Char) : requestLine :=
  match splitOnChar ' ' (dropCR line) with
  | [m, r, v] =>
    match parseVersion v with
    | some ver =>
      if m ≠ [] ∧ m.all (·.isUpper) ∧ r ≠ [] then
        { method := String.mk m, resource := String.mk r, version := ver,
          valid := true }
      else invalidRequestLine
    | none => invalidRequestLine
  | _ => invalidRequestLine

/-- Parsed status line: protocol version, status code and a validity
flag. -/
structure statusLine where
  version : Nat × Nat
  code : Nat
  valid : Bool
deriving DecidableEq

/-- The parse result for a line that does not match the status-line
grammar. -/
def invalidStatusLine : statusLine :=
  { version := (0, 0), code := 0, valid := false }

/-- Modelled from the spec: the external status-line parser.  A valid
status line is `HTTP/maj.min SP code SP reason` with a three-digit
status code. -/
def parseStatusLine (line : List Char) : statusLine :=
  match splitOnChar ' ' (dropCR line) with
  | v :: c :: _ =>
    match parseVersion v, digitsVal c with
    | some ver, some code =>
      if 100 ≤ code ∧ code ≤ 599 then
        { version := ver, code := code, valid := true }
      else invalidStatusLine
    | _, _ => invalidStatusLine
  | _ => invalidStatusLine

/-- Modelled from the spec: the status-code-to-reason table is an
external collaborator; the entries used by the examples are listed. -/
def statusDescription (code : Nat) : String :=
  if code = 100 then "Continue"
  else if code = 101 then "Switching Protocols"
  else if code = 200 then "OK"
  else if code = 400 then "Bad Request"
  else if code = 404 then "Not Found"
  else if code = 405 then "Method Not Allowed"
  else if code = 505 then "HTTP Version Not Supported"
  else "Unassigned"

/-- Modelled from the spec: `std::string(statusLine(code))` — the
serialised reply status line, always stamped `HTTP/1.1`. -/
def statusLineStr (code : Nat) : String :=
  "HTTP/1.1 " ++ toString code ++ " " ++ statusDescription code ++ "\r\n"

/-- Modelled from the spec: `requestLine(method, resource).assemble()`
— the serialised request line of an outbound request, stamped
`HTTP/1.1`. -/
def assembleRequestLine (method resource : String) : String :=
  method ++ " " ++ resource ++ " HTTP/1.1\r\n"

/-! ## The inbound header parser state -/

/-- The header-accumulating part of `parser<headers>`: the map plus the
completeness flag set once the terminating blank line is seen.
Modelled from the spec (the parser itself is external). -/
structure parser where
  header : headers
  complete : Bool
deriving DecidableEq

/-- A freshly constructed `parser<headers>`. -/
def emptyParser : parser := { header := [], complete := false }

/-- Modelled from the spec: absorbing one header line.  A blank line
(optionally `\r`) completes the block; a `Name: value` line is
recorded, repeated names appending Vary-style. -/
def absorbHeader (p : parser) (line : List Char) : parser :=
  let l := dropCR line
  if l.isEmpty then { p with complete := true }
  else
    match splitOnChar ':' l with
    | n :: v :: rest =>
      let value := (String.mk ((v :: rest).foldl (fun a g => a ++ ':' :: g) []).tail).trim
      { p with header := hdrAppend p.header (String.mk n) value }
    | _ => p

/-! ## Session data (`http-session.h`) -/

/-- `enum status`: the session phase. -/
inductive Status where
  | stRequest
  | stStatus
  | stHeader
  | stContent
  | stProcessing
  | stError
  | stShutdown
deriving DecidableEq

/-- The global header negotiation map (`sendNegotiatedAs`): maps input
header names to their outbound equivalent. -/
def sendNegotiatedAs : headers := [("Accept", "Content-Type")]

/-- Modelled from the spec: the library identifier string from the
version header, sent as the default `User-Agent`. -/
def identifier : String := "cxxhttp/1"

/-- Default client headers (`defaultClientHeaders`), sent with every
client request unless overridden. -/
def defaultClientHeaders : headers := [("User-Agent", identifier)]

/-- Transport-agnostic HTTP session data (`sessionData`).  The ASIO
input stream buffer is modelled as the list of buffered bytes. -/
structure sessionData where
  status : Status
  inboundRequest : requestLine
  inboundStatus : statusLine
  negotiated : headers
  inbound : parser
  outbound : parser
  content : List Char
  contentLength : Nat
  requests : Nat
  replies : Nat
  errors : Nat
  outboundQueue : List String
  closeAfterSend : Bool
  writePending : Bool
  free : Bool
  isHEAD : Bool
  input : List Char
deriving DecidableEq

/-- The default constructor `sessionData()`: phase `stRequest`, zero
counters and cleared flags; the remaining members are
default-constructed empty. -/
def sessionDataInit : sessionData :=
  { status := Status.stRequest
    inboundRequest := invalidRequestLine
    inboundStatus := invalidStatusLine
    negotiated := []
    inbound := emptyParser
    outbound := emptyParser
    content := []
    contentLength := 0
    requests := 0
    replies := 0
    errors := 0
    outboundQueue := []
    closeAfterSend := false
    writePending := false
    free := false
    isHEAD := false
    input := [] }

/-- `queries()`: total number of queries the session has sent. -/
def queries (s : sessionData) : Nat := s.replies + s.requests

/-- `remainingBytes()`: `contentLength - content.size()` on
`std::size_t`, hence with 64-bit unsigned wraparound. -/
def remainingBytes (s : sessionData) : Nat :=
  ((((s.contentLength : Int) - (s.content.length : Int))) % ((2 : Int) ^ 64)).toNat

/-- The automatically computed headers of `generateReply`: a
`Content-Length` whenever a body is allowed or the request was a HEAD,
and `Connection: close` when keep-alive is disallowed (status ≥
400). -/
def replyAutoHeaders (s : sessionData) (code : Nat) (body : String) : headers :=
  let allowBody := decide (200 ≤ code) && !s.isHEAD
  let head : headers := []
  let head :=
    if allowBody || s.isHEAD then
      hdrInsert head [("Content-Length", toString body.utf8ByteSize)]
    else head
  if decide (code < 400) then head else hdrInsert head [("Connection", "close")]

/-- The header block of `generateReply`: the automatic headers, then
the caller's headers, then the negotiated outbound headers, each
inserted without overwriting what is already present. -/
def replyHeaders (s : sessionData) (code : Nat) (body : String)
    (header : headers) : headers :=
  hdrInsert (hdrInsert (replyAutoHeaders s code body) header) s.outbound.header

/-- `generateReply(status, body, header)`: the raw HTTP reply message.
Informational responses (status < 200) and replies on a HEAD-flagged
session have no message body. -/
def generateReply (s : sessionData) (code : Nat) (body : String)
    (header : headers) : String :=
  let allowBody := decide (200 ≤ code) && !s.isHEAD
  statusLineStr code ++ hdrSerialize (replyHeaders s code body header) ++ "\r\n" ++
    (if allowBody then body else "")

/-- `buffer()`: extract a newline-delimited line while parsing the
request/status line or headers, or up to
`min(remainingBytes(), input.size())` body bytes while streaming
content; returns the extracted data and the session with the bytes
consumed from `input`. -/
def getline : List Char → List Char × List Char
  | [] => ([], [])
  | c :: t =>
    if c = '\n' then ([], t)
    else
      let r := getline t
      (c :: r.1, r.2)

/-- `sessionData::buffer()`. -/
def buffer (s : sessionData) : List Char × sessionData :=
  if s.status = Status.stRequest ∨ s.status = Status.stStatus ∨
      s.status = Status.stHeader then
    let r := getline s.input
    (r.1, { s with input := r.2 })
  else if s.status = Status.stContent ∧ 0 < remainingBytes s then
    let n := min (remainingBytes s) s.input.length
    (s.input.take n, { s with input := s.input.drop n })
  else ([], s)

/-- One iteration of the `negotiate` loop over the requested
negotiations, threading the session and the `badNegotiation` flag.
The client preference is the inbound header value, or empty when
absent; the resolved value is recorded in `negotiated`, the header name
appended to the outbound `Vary`, and a `sendNegotiatedAs` mapping sets
the corresponding outbound header. -/
def negotiateLoop (negFn : String → String → String) :
    List (String × String) → sessionData → Bool → sessionData × Bool
  | [], s, bad => (s, bad)
  | (k, spec) :: t, s, bad =>
    let cv := (hdrFind s.inbound.header k).getD ""
    let v := negFn cv spec
    let ob1 := hdrAppend s.outbound.header "Vary" k
    let ob2 :=
      match hdrFind sendNegotiatedAs k with
      | some out => hdrSet ob1 out v
      | none => ob1
    negotiateLoop negFn t
      { s with negotiated := hdrSet s.negotiated k v,
               outbound := { s.outbound with header := ob2 } }
      (bad || decide (v = ""))

/-- The comma-separated continuation of a Vary-style header value. -/
def commaTail : List String → String
  | [] => ""
  | k :: t => "," ++ k ++ commaTail t

/-- The value of a Vary-style header listing the given names. -/
def varyValue : List String → String
  | [] => ""
  | k :: t => k ++ commaTail t

/-- `negotiate(negotiations)`: resets `negotiated`, performs every
negotiation, and reports whether all of them succeeded.  The
negotiation algorithm proper is an external collaborator, passed in as
`negFn` (an empty result signals failure). -/
def negotiate (negFn : String → String → String) (s : sessionData)
    (negotiations : headers) : sessionData × Bool :=
  let r := negotiateLoop negFn negotiations { s with negotiated := [] } false
  (r.1, !r.2)

/-- `request(method, resource, header, body)`: queue up a request
message built from the caller's headers merged with the default client
headers, flag HEAD requests, and count the request. -/
def request (s : sessionData) (method resource : String) (header : headers)
    (body : String) : sessionData :=
  let head := hdrInsert header defaultClientHeaders
  { s with
    outboundQueue := s.outboundQueue ++
      [assembleRequestLine method resource ++ hdrSerialize head ++ "\r\n" ++ body],
    isHEAD := decide (method = "HEAD"),
    requests := s.requests + 1 }

/-- `reply(status, body, header)`: queue up the generated reply
message, close after sending for error statuses, and count the
reply. -/
def reply (s : sessionData) (code : Nat) (body : String)
    (header : headers) : sessionData :=
  { s with
    outboundQueue := s.outboundQueue ++ [generateReply s code body header],
    closeAfterSend := s.closeAfterSend || decide (400 ≤ code),
    replies := s.replies + 1 }

/-! ## Flow controller (`http-flow.h`)

The flow controller owns the stream handles and drives asynchronous
reads and writes.  Each operation is modelled as a state transformer on
the session that also returns the list of I/O actions it issues; the
transport outcome of the shutdown/close pair in `recycle` is passed in
as the boolean `ec`. -/

/-- An I/O action issued by the flow controller: an asynchronous write
of a message, a read-until-newline, a read of at least the given byte
count, or the shutdown-and-close of the connection. -/
inductive ioAction where
  | write (msg : String)
  | readLine
  | readContent (lowerBound : Nat)
  | shutdownClose
deriving DecidableEq

/-- The request-processor extension points used by the flow controller.
The hooks receive the session and may update it; `afterHeaders` and
`afterProcessing` additionally return the next phase.  The processor's
`recycle` hook releases processor-owned per-request state and, per the
spec, leaves the session record itself unchanged, so it is not
represented here. -/
structure processorHooks where
  onStart : sessionData → sessionData
  afterHeaders : sessionData → sessionData × Status
  handle : sessionData → sessionData
  afterProcessing : sessionData → sessionData × Status

/-- `flow::recycle()`: when the session is not already free, set the
phase to `stShutdown`, clear `closeAfterSend` and the outbound queue,
shut down and close the connection (counting a transport error if the
close reports one), discard all buffered input, and mark the session
free. -/
def recycle (ec : Bool) (s : sessionData) : sessionData × List ioAction :=
  if s.free then (s, [])
  else
    ({ s with
        status := Status.stShutdown,
        closeAfterSend := false,
        outboundQueue := [],
        errors := if ec then s.errors + 1 else s.errors,
        input := [],
        free := true },
     [ioAction.shutdownClose])

/-- `flow::send()`: unless shut down or a write is already pending,
issue an asynchronous write for the front of the outbound queue and pop
it; with an empty queue, recycle if `closeAfterSend` is set. -/
def send (ec : Bool) (s : sessionData) : sessionData × List ioAction :=
  if s.status ≠ Status.stShutdown ∧ s.writePending = false then
    match s.outboundQueue with
    | msg :: rest =>
      ({ s with writePending := true, outboundQueue := rest },
       [ioAction.write msg])
    | [] => if s.closeAfterSend then recycle ec s else (s, [])
  else (s, [])

/-- `flow::handleStart()`: issue a line read when awaiting a
request/status line, recycle when already shutting down, then attempt
to send. -/
def handleStart (ec : Bool) (s : sessionData) : sessionData × List ioAction :=
  let r1 : sessionData × List ioAction :=
    if s.status = Status.stRequest ∨ s.status = Status.stStatus then
      (s, [ioAction.readLine])
    else if s.status = Status.stShutdown then recycle ec s
    else (s, [])
  let r2 := send ec r1.1
  (r2.1, r1.2 ++ r2.2)

/-- `flow::start()`: run the processor's start hook, then decide what
to do next. -/
def start (P : processorHooks) (ec : Bool) (s : sessionData) :
    sessionData × List ioAction :=
  handleStart ec (P.onStart s)

/-- Modelled from the spec: `http::error(session).reply(code)` — the
synthesized error reply enqueued for malformed input, a plain reply
carrying the status description as its body. -/
def errorReply (code : Nat) (s : sessionData) : sessionData :=
  reply s code (statusDescription code) []

/-- `flow::handleRead(error, length)`: the central read-completion
transition.  Ignore stale completions after shutdown; force `stError`
on a transport error; classify the freshly available data against the
current phase (request line, status line, header line, body bytes);
reject protocol versions ≥ 2.0; synthesize a 505/400 reply for a failed
request line; issue the next read, run the processor on a complete
message, and recycle on an error phase. -/
def handleRead (P : processorHooks) (ec : Bool) (err : Bool)
    (s0 : sessionData) : sessionData × List ioAction :=
  if s0.status = Status.stShutdown then (s0, [])
  else
    let s1 := if err then { s0 with status := Status.stError } else s0
    let wasRequest := s1.status = Status.stRequest
    let wasStart := wasRequest ∨ s1.status = Status.stStatus
    let step1 : sessionData × (Nat × Nat) × List ioAction :=
      if s1.status = Status.stRequest then
        let r := buffer s1
        let rl := parseRequestLine r.1
        ({ r.2 with
            inboundRequest := rl,
            status := if rl.valid then Status.stHeader else Status.stError },
         rl.version, [])
      else if s1.status = Status.stStatus then
        let r := buffer s1
        let sl := parseStatusLine r.1
        ({ r.2 with
            inboundStatus := sl,
            status := if sl.valid then Status.stHeader else Status.stError },
         sl.version, [])
      else if s1.status = Status.stHeader then
        let r := buffer s1
        let sa := { r.2 with inbound := absorbHeader r.2.inbound r.1 }
        if sa.inbound.complete then
          let ah := P.afterHeaders sa
          let sd := send ec { ah.1 with status := ah.2 }
          ({ sd.1 with content := [] }, (0, 0), sd.2)
        else (sa, (0, 0), [])
      else (s1, (0, 0), [])
    let s2 := step1.1
    let version := step1.2.1
    let s3 :=
      if wasStart ∧ s2.status ≠ Status.stError ∧ versionGE version (2, 0) = true
      then { s2 with status := Status.stError } else s2
    let step2 : sessionData × List ioAction :=
      if wasStart ∧ s3.status = Status.stHeader then
        ({ s3 with inbound := emptyParser }, [])
      else if wasRequest ∧ s3.status = Status.stError then
        let sa := errorReply (if versionGE version (2, 0) then 505 else 400) s3
        let sd := send ec sa
        ({ sd.1 with status := Status.stProcessing }, sd.2)
      else (s3, [])
    let s4 := step2.1
    let step3 : sessionData × List ioAction :=
      if s4.status = Status.stHeader then (s4, [ioAction.readLine])
      else if s4.status = Status.stContent then
        let r := buffer s4
        let sb := { r.2 with content := r.2.content ++ r.1 }
        if remainingBytes sb = 0 then
          let sc := P.handle { sb with status := Status.stProcessing }
          let ap := P.afterProcessing sc
          handleStart ec { ap.1 with status := ap.2 }
        else (sb, [ioAction.readContent (remainingBytes sb)])
      else (s4, [])
    let s5 := step3.1
    let step4 := if s5.status = Status.stError then recycle ec s5 else (s5, [])
    (step4.1, step1.2.2 ++ step2.2 ++ step3.2 ++ step4.2)

/-- `flow::handleWrite(error)`: clear the in-flight flag; on success,
advance an in-processing phase via the processor and attempt the next
send; on a transport error or a shutdown phase, recycle. -/
def handleWrite (P : processorHooks) (ec : Bool) (err : Bool)
    (s0 : sessionData) : sessionData × List ioAction :=
  let s1 := { s0 with writePending := false }
  let step1 : sessionData × List ioAction :=
    if err = false then
      let sa :=
        if s1.status = Status.stProcessing then
          let ap := P.afterProcessing s1
          { ap.1 with status := ap.2 }
        else s1
      send ec sa
    else (s1, [])
  let s2 := step1.1
  let step2 :=
    if err = true ∨ s2.status = Status.stShutdown then recycle ec s2
    else (s2, [])
  (step2.1, step1.2 ++ step2.2)

/-- A processor whose hooks leave the session unchanged and keep the
phase at `stProcessing`; used for drain scenarios. -/
def idleProcessor : processorHooks where
  onStart := fun s => s
  afterHeaders := fun s => (s, Status.stProcessing)
  handle := fun s => s
  afterProcessing := fun s => (s, Status.stProcessing)

end http

end cxxhttp

namespace cxxhttp.http

theorem hdrFind_congr (h : headers) {q q' : String} (e : lowerKey q = lowerKey q') :
    hdrFind h q = hdrFind h q' := by
  induction h with
  | nil => rfl
  | cons r t ih => simp only [hdrFind, e, ih]

theorem hdrFind_sortedInsert (h : headers) (p : String × String) (q : String)
    (hnone : hdrFind h p.1 = none) :
    hdrFind (sortedInsert h p) q =
      if lowerKey p.1 = lowerKey q then some p.2 else hdrFind h q := by
  induction h with
  | nil => simp [sortedInsert, hdrFind]
  | cons r t ih =>
    have hr : ¬ lowerKey r.1 = lowerKey p.1 := by
      intro e; simp [hdrFind, e] at hnone
    have ht : hdrFind t p.1 = none := by
      simpa [hdrFind, hr] using hnone
    by_cases hlt : keyLT (lowerKey r.1) (lowerKey p.1) = true
    · rw [show sortedInsert (r :: t) p = r :: sortedInsert t p from by
        simp [sortedInsert, hlt]]
      by_cases hq : lowerKey r.1 = lowerKey q
      · have hpq : ¬ lowerKey p.1 = lowerKey q := fun e => hr (hq.trans e.symm)
        simp [hdrFind, hq, hpq]
      · simp [hdrFind, hq, ih ht]
    · rw [show sortedInsert (r :: t) p = p :: r :: t from by
        simp [sortedInsert, hlt]]
      simp [hdrFind]

theorem hdrFind_hdrInsert1 (h : headers) (k v q : String) :
    hdrFind (hdrInsert1 h k v) q =
      (hdrFind h q).or (if lowerKey k = lowerKey q then some v else none) := by
  unfold hdrInsert1
  by_cases hk : (hdrFind h k).isSome
  · rw [if_pos hk]
    by_cases hq : lowerKey k = lowerKey q
    · rw [← hdrFind_congr h hq]
      obtain ⟨w, hw⟩ := Option.isSome_iff_exists.mp hk
      simp [hw]
    · cases hfq : hdrFind h q <;> simp [hq]
  · rw [if_neg hk]
    have hnone : hdrFind h k = none := Option.not_isSome_iff_eq_none.mp hk
    rw [hdrFind_sortedInsert h (k, v) q hnone]
    by_cases hq : lowerKey k = lowerKey q
    · have : hdrFind h q = none := (hdrFind_congr h hq) ▸ hnone
      simp [hq, this]
    · cases hfq : hdrFind h q <;> simp [hq]

theorem hdrFind_hdrInsert (h extra : headers) (q : String) :
    hdrFind (hdrInsert h extra) q = (hdrFind h q).or (hdrFind extra q) := by
  induction extra generalizing h with
  | nil => cases hfq : hdrFind h q <;> simp [hdrInsert, hdrFind, hfq]
  | cons p t ih =>
    show hdrFind (hdrInsert (hdrInsert1 h p.1 p.2) t) q = _
    rw [ih, hdrFind_hdrInsert1]
    cases hfq : hdrFind h q
    · by_cases hpq : lowerKey p.1 = lowerKey q <;> simp [hdrFind, hpq]
    · simp [hdrFind]

theorem hdrFind_hdrSet (h : headers) (k v q : String) :
    hdrFind (hdrSet h k v) q =
      if lowerKey k = lowerKey q then some v else hdrFind h q := by
  induction h with
  | nil => simp [hdrSet, hdrFind]
  | cons r t ih =>
    by_cases hr : lowerKey r.1 = lowerKey k
    · by_cases hq : lowerKey k = lowerKey q
      · simp [hdrSet, hr, hdrFind, hr.trans hq, hq]
      · have hrq : ¬ lowerKey r.1 = lowerKey q := fun e => hq (hr.symm.trans e)
        simp [hdrSet, hr, hdrFind, hq, hrq]
    · by_cases hq : lowerKey k = lowerKey q
      · have hrq : ¬ lowerKey r.1 = lowerKey q := fun e => hr (e.trans hq.symm)
        simp [hdrSet, hr, hdrFind, hq, hrq, ih]
      · simp [hdrSet, hr, hdrFind, hq, ih]

theorem hdrFind_hdrAppend_ne (h : headers) (k v q : String)
    (hne : ¬ lowerKey k = lowerKey q) :
    hdrFind (hdrAppend h k v) q = hdrFind h q := by
  cases hf : hdrFind h k with
  | none => simp [hdrAppend, hf, hdrFind_hdrSet, hne]
  | some old =>
    by_cases ho : old = "" <;> simp [hdrAppend, hf, ho, hdrFind_hdrSet, hne]

theorem hdrFind_hdrAppend_none (h : headers) (k v q : String)
    (hq : lowerKey k = lowerKey q) (hf : hdrFind h k = none) :
    hdrFind (hdrAppend h k v) q = some v := by
  simp [hdrAppend, hf, hdrFind_hdrSet, hq]

theorem hdrFind_hdrAppend_some (h : headers) (k v q old : String)
    (hq : lowerKey k = lowerKey q) (hf : hdrFind h k = some old)
    (hold : old ≠ "") :
    hdrFind (hdrAppend h k v) q = some (old ++ "," ++ v) := by
  simp [hdrAppend, hf, hold, hdrFind_hdrSet, hq]

theorem replyAuto_contentLength (s : sessionData) (code : Nat) (body : String)
    (h : ((decide (200 ≤ code) && !s.isHEAD) || s.isHEAD) = true) :
    hdrFind (replyAutoHeaders s code body) "Content-Length" =
      some (toString body.utf8ByteSize) := by
  simp only [replyAutoHeaders]
  rw [if_pos h]
  by_cases h4 : decide (code < 400) = true
  · rw [if_pos h4]; rfl
  · rw [if_neg h4]; rfl

theorem replyAuto_connection (s : sessionData) (code : Nat) (body : String)
    (h : 400 ≤ code) :
    hdrFind (replyAutoHeaders s code body) "Connection" = some "close" := by
  simp only [replyAutoHeaders]
  have h4 : ¬ decide (code < 400) = true := by simp; omega
  rw [if_neg h4]
  by_cases hb : ((decide (200 ≤ code) && !s.isHEAD) || s.isHEAD) = true
  · rw [if_pos hb]; rfl
  · rw [if_neg hb]; rfl

/-- C1: the reply message generated by `generateReply` includes the body iff
the status is at least 200 and the session is not HEAD-flagged; statuses
below 200 never include a body; on a HEAD-flagged session the message carries
a `Content-Length` equal to the body size while the body is omitted; a status
of 400 or more adds a `Connection: close` header, and enqueueing such a reply
via `reply` sets `closeAfterSend`. -/
theorem C1_composeReply (s : sessionData) (code : Nat) (body : String)
    (hdr : headers) :
    (200 ≤ code → s.isHEAD = false →
      generateReply s code body hdr =
        statusLineStr code ++ hdrSerialize (replyHeaders s code body hdr) ++
          "\r\n" ++ body)
  ∧ (code < 200 →
      generateReply s code body hdr =
        statusLineStr code ++ hdrSerialize (replyHeaders s code body hdr) ++
          "\r\n")
  ∧ (s.isHEAD = true →
      generateReply s code body hdr =
        statusLineStr code ++ hdrSerialize (replyHeaders s code body hdr) ++
          "\r\n"
      ∧ hdrFind (replyHeaders s code body hdr) "Content-Length" =
          some (toString body.utf8ByteSize))
  ∧ (400 ≤ code →
      hdrFind (replyHeaders s code body hdr) "Connection" = some "close")
  ∧ (400 ≤ code → (reply s code body hdr).closeAfterSend = true) := by
  refine ⟨?_, ?_, ?_, ?_, ?_⟩
  · intro h200 hH
    have hb : (decide (200 ≤ code) && !s.isHEAD) = true := by simp [h200, hH]
    simp only [generateReply]
    rw [if_pos hb]
  · intro h200
    have hb : ¬ (decide (200 ≤ code) && !s.isHEAD) = true := by
      simp; omega
    simp only [generateReply]
    rw [if_neg hb]
    simp
  · intro hH
    have hb : ¬ (decide (200 ≤ code) && !s.isHEAD) = true := by simp [hH]
    constructor
    · simp only [generateReply]
      rw [if_neg hb]
      simp
    · have hcl := replyAuto_contentLength s code body (by simp [hH])
      simp [replyHeaders, hdrFind_hdrInsert, hcl]
  · intro h400
    have hconn := replyAuto_connection s code body h400
    simp [replyHeaders, hdrFind_hdrInsert, hconn]
  · intro h400
    simp [reply, h400]

theorem C1_composeReply_witness :
    (generateReply sessionDataInit 101 "ignored-body" [] =
      statusLineStr 101 ++
        hdrSerialize (replyHeaders sessionDataInit 101 "ignored-body" []) ++
        "\r\n")
  ∧ hdrFind (replyHeaders { sessionDataInit with isHEAD := true } 200 "hello" [])
      "Content-Length" = some (toString ("hello" : String).utf8ByteSize)
  ∧ hdrFind (replyHeaders sessionDataInit 404 "not found" []) "Connection" =
      some "close"
  ∧ (reply sessionDataInit 404 "not found" []).closeAfterSend = true :=
  ⟨(C1_composeReply sessionDataInit 101 "ignored-body" []).2.1 (by decide),
   ((C1_composeReply { sessionDataInit with isHEAD := true } 200 "hello" []).2.2.1
     rfl).2,
   (C1_composeReply sessionDataInit 404 "not found" []).2.2.2.1 (by decide),
   (C1_composeReply sessionDataInit 404 "not found" []).2.2.2.2 (by decide)⟩

/-- C2 counterexample: caller-supplied extra headers do not override the
auto-computed ones, and negotiated outbound headers do not override
caller-supplied ones: the auto-computed `Content-Length: 2` survives a
caller-supplied `Content-Length: 999`, and a caller-supplied `Content-Type`
survives a negotiated outbound `Content-Type`. -/
theorem C2_counterexample :
    generateReply sessionDataInit 200 "hi" [("Content-Length", "999")] =
      "HTTP/1.1 200 OK\r\nContent-Length: 2\r\n\r\nhi"
  ∧ hdrFind (replyHeaders sessionDataInit 200 "hi" [("Content-Length", "999")])
      "Content-Length" ≠ some "999"
  ∧ hdrFind (replyHeaders
      { sessionDataInit with
          outbound := { header := [("Content-Type", "text/html")],
                        complete := false } }
      200 "hi" [("Content-Type", "text/plain")]) "Content-Type" =
      some "text/plain" := by
  refine ⟨by decide, by decide, by decide⟩

/-- C2 (amended): lookup in the serialized header block resolves by
first-insertion-wins precedence — the auto-computed headers take precedence
over caller-supplied `extraHeaders`, which take precedence over the
previously negotiated outbound headers, the latter only filling names not
already present. -/
theorem C2_header_precedence (s : sessionData) (code : Nat) (body : String)
    (hdr : headers) (q : String) :
    hdrFind (replyHeaders s code body hdr) q =
      ((hdrFind (replyAutoHeaders s code body) q).or (hdrFind hdr q)).or
        (hdrFind s.outbound.header q) := by
  simp [replyHeaders, hdrFind_hdrInsert]

/-- C3 counterexample: after `recycle()` the session is not indistinguishable
from a freshly constructed one with zeroed counters — the HEAD flag, the body
buffer, the content length and the request counter keep their old values. -/
theorem C3_counterexample :
    (recycle false
        { sessionDataInit with
            isHEAD := true, content := ['x'], requests := 3,
            contentLength := 7, status := Status.stProcessing }).1.isHEAD = true
  ∧ sessionDataInit.isHEAD = false
  ∧ (recycle false
        { sessionDataInit with
            isHEAD := true, content := ['x'], requests := 3,
            contentLength := 7, status := Status.stProcessing }).1.requests = 3
  ∧ (recycle false
        { sessionDataInit with
            isHEAD := true, content := ['x'], requests := 3,
            contentLength := 7, status := Status.stProcessing }).1.content = ['x']
  ∧ (recycle false
        { sessionDataInit with
            isHEAD := true, content := ['x'], requests := 3,
            contentLength := 7, status := Status.stProcessing }).1.contentLength
      = 7 := by
  refine ⟨rfl, rfl, rfl, rfl, rfl⟩

/-- C3 (amended): on a non-free session, `recycle()` clears the outbound
queue and `closeAfterSend`, discards the buffered input, sets the phase to
`stShutdown` and marks the session free (incrementing the error counter when
the close reports an error); the body buffer, inbound headers, HEAD flag,
content length and the counters keep their values. -/
theorem C3_recycle_effect (ec : Bool) (s : sessionData) (h : s.free = false) :
    (recycle ec s).1.status = Status.stShutdown
  ∧ (recycle ec s).1.closeAfterSend = false
  ∧ (recycle ec s).1.outboundQueue = []
  ∧ (recycle ec s).1.input = []
  ∧ (recycle ec s).1.free = true
  ∧ (recycle ec s).1.errors = (if ec then s.errors + 1 else s.errors)
  ∧ (recycle ec s).1.content = s.content
  ∧ (recycle ec s).1.inbound = s.inbound
  ∧ (recycle ec s).1.outbound = s.outbound
  ∧ (recycle ec s).1.negotiated = s.negotiated
  ∧ (recycle ec s).1.isHEAD = s.isHEAD
  ∧ (recycle ec s).1.contentLength = s.contentLength
  ∧ (recycle ec s).1.requests = s.requests
  ∧ (recycle ec s).1.replies = s.replies
  ∧ (recycle ec s).1.writePending = s.writePending := by
  simp [recycle, h]

theorem C3_recycle_effect_witness :
    (recycle false sessionDataInit).1.free = true :=
  (C3_recycle_effect false sessionDataInit rfl).2.2.2.2.1

/-- C4: `recycle()` always leaves the session free, so a second call in a row
is a no-op (it changes nothing and issues no I/O), making `recycle()`
idempotent; a call on an already-free session is itself a no-op, and a call
on a non-free session empties the outbound queue, clears `closeAfterSend`,
discards buffered input and marks the session free. -/
theorem C4_recycle_idempotent (ec ec' : Bool) (s : sessionData) :
    (recycle ec s).1.free = true
  ∧ recycle ec' (recycle ec s).1 = ((recycle ec s).1, [])
  ∧ (s.free = true → recycle ec s = (s, []))
  ∧ (s.free = false →
      (recycle ec s).1.outboundQueue = []
      ∧ (recycle ec s).1.closeAfterSend = false
      ∧ (recycle ec s).1.input = []
      ∧ (recycle ec s).1.free = true) := by
  by_cases h : s.free = true
  · simp [recycle, h]
  · have h0 : s.free = false := by simpa using h
    simp [recycle, h0]

theorem C4_recycle_idempotent_witness :
    recycle true (recycle false sessionDataInit).1 =
      ((recycle false sessionDataInit).1, [])
  ∧ (recycle false sessionDataInit).1.outboundQueue = [] :=
  ⟨(C4_recycle_idempotent false true sessionDataInit).2.1,
   ((C4_recycle_idempotent false true sessionDataInit).2.2.2 rfl).1⟩

/-- C5: once the content length is set and the body buffer has not exceeded
it, `remainingBytes()` is exactly the integer difference
`contentLength − content.size()` (never negative), and a body read appends at
most `min(remainingBytes(), input.size())` bytes, so the buffer never grows
past the expected length. -/
theorem C5_remainingBytes_invariant (s : sessionData)
    (hle : s.content.length ≤ s.contentLength)
    (hlt : s.contentLength < 2 ^ 64) :
    remainingBytes s = s.contentLength - s.content.length
  ∧ (remainingBytes s : Int) =
      (s.contentLength : Int) - (s.content.length : Int)
  ∧ (s.status = Status.stContent →
      (s.content ++ (buffer s).1).length ≤ s.contentLength) := by
  have h1 : remainingBytes s = s.contentLength - s.content.length := by
    unfold remainingBytes
    rw [Int.emod_eq_of_lt (by omega) (by push_cast; omega)]
    omega
  refine ⟨h1, by rw [h1]; omega, ?_⟩
  intro hst
  unfold buffer
  have hn1 : ¬ (s.status = Status.stRequest ∨ s.status = Status.stStatus ∨
      s.status = Status.stHeader) := by
    simp [hst]
  rw [if_neg hn1]
  by_cases hrem : s.status = Status.stContent ∧ 0 < remainingBytes s
  · rw [if_pos hrem]
    simp only [List.length_append, List.length_take]
    omega
  · rw [if_neg hrem]
    simpa using hle

theorem C5_remainingBytes_invariant_witness :
    remainingBytes
        { sessionDataInit with
            status := Status.stContent, contentLength := 5,
            content := ['a'], input := ['b', 'c'] } =
      { sessionDataInit with
          status := Status.stContent, contentLength := 5,
          content := ['a'], input := ['b', 'c'] }.contentLength -
        { sessionDataInit with
            status := Status.stContent, contentLength := 5,
            content := ['a'], input := ['b', 'c'] }.content.length
  ∧ ({ sessionDataInit with
        status := Status.stContent, contentLength := 5,
        content := ['a'], input := ['b', 'c'] }.content ++
      (buffer
        { sessionDataInit with
            status := Status.stContent, contentLength := 5,
            content := ['a'], input := ['b', 'c'] }).1).length ≤
      { sessionDataInit with
          status := Status.stContent, contentLength := 5,
          content := ['a'], input := ['b', 'c'] }.contentLength :=
  ⟨(C5_remainingBytes_invariant _ (by decide) (by decide)).1,
   (C5_remainingBytes_invariant _ (by decide) (by decide)).2.2 rfl⟩

/-- C9: every request message built by `request()` serialises the caller's
headers merged with the default client headers, and that merged map carries a
`User-Agent` — the library identifier when the caller did not supply one, the
caller's own value otherwise. -/
theorem C9_request_default_headers (s : sessionData) (method resource : String)
    (hdr : headers) (body : String) :
    (request s method resource hdr body).outboundQueue =
      s.outboundQueue ++
        [assembleRequestLine method resource ++
          hdrSerialize (hdrInsert hdr defaultClientHeaders) ++ "\r\n" ++ body]
  ∧ hdrFind (hdrInsert hdr defaultClientHeaders) "User-Agent" =
      some ((hdrFind hdr "User-Agent").getD identifier) := by
  refine ⟨rfl, ?_⟩
  rw [hdrFind_hdrInsert]
  cases hfq : hdrFind hdr "User-Agent" <;>
    simp [defaultClientHeaders, hdrFind]

/-- C10: a read completion that arrives while the session phase is
`stShutdown` is ignored entirely — `handleRead` returns the session
unchanged and issues no I/O action. -/
theorem C10_shutdown_read_ignored (P : processorHooks) (ec err : Bool)
    (s : sessionData) (h : s.status = Status.stShutdown) :
    handleRead P ec err s = (s, []) := by
  unfold handleRead
  rw [if_pos h]

theorem C10_shutdown_read_ignored_witness :
    handleRead idleProcessor false true
        { sessionDataInit with status := Status.stShutdown } =
      ({ sessionDataInit with status := Status.stShutdown }, []) :=
  C10_shutdown_read_ignored idleProcessor false true _ rfl

/-- C8: physical writes are serialized and FIFO — `send()` is a no-op while a
write is pending or after shutdown, otherwise it writes exactly the front of
the outbound queue and sets `writePending` (so an immediate second `send()`
writes nothing); and enqueuing two replies on an otherwise-idle session and
draining the queue through write completions yields the two messages in
enqueue order. -/
theorem C8_write_serialization (ec ec' : Bool) (s t : sessionData) (m : String)
    (rest : List String) (c1 c2 : Nat) (b1 b2 : String) (h1 h2 : headers) :
    (s.writePending = true → send ec s = (s, []))
  ∧ (s.writePending = false → s.status ≠ Status.stShutdown →
      s.outboundQueue = m :: rest →
      send ec s = ({ s with writePending := true, outboundQueue := rest },
        [ioAction.write m])
      ∧ (send ec' { s with writePending := true, outboundQueue := rest }).2 = [])
  ∧ (t.writePending = false → t.status = Status.stProcessing →
      t.closeAfterSend = false → t.outboundQueue = [] →
      c1 < 400 → c2 < 400 →
      (send ec (reply (reply t c1 b1 h1) c2 b2 h2)).2 ++
          (handleWrite idleProcessor ec false
            (send ec (reply (reply t c1 b1 h1) c2 b2 h2)).1).2 ++
          (handleWrite idleProcessor ec false
            (handleWrite idleProcessor ec false
              (send ec (reply (reply t c1 b1 h1) c2 b2 h2)).1).1).2 =
        [ioAction.write (generateReply t c1 b1 h1),
         ioAction.write (generateReply (reply t c1 b1 h1) c2 b2 h2)]
      ∧ (handleWrite idleProcessor ec false
          (handleWrite idleProcessor ec false
            (send ec (reply (reply t c1 b1 h1) c2 b2 h2)).1).1).1.outboundQueue
          = []) := by
  refine ⟨?_, ?_, ?_⟩
  · intro hw
    simp [send, hw]
  · intro hw hs hq
    constructor
    · simp [send, hw, hs, hq]
    · simp [send]
  · intro hw hs hcl hq hc1 hc2
    have d1 : decide (400 ≤ c1) = false := by simp; omega
    have d2 : decide (400 ≤ c2) = false := by simp; omega
    simp [reply, send, handleWrite, idleProcessor, hw, hs, hcl, hq, d1, d2]

theorem C8_write_serialization_witness :
    send false { sessionDataInit with writePending := true } =
      ({ sessionDataInit with writePending := true }, [])
  ∧ send false
        { sessionDataInit with
            status := Status.stProcessing, outboundQueue := ["m"] } =
      ({ sessionDataInit with
          status := Status.stProcessing, writePending := true,
          outboundQueue := ([] : List String) },
       [ioAction.write "m"])
  ∧ (send false
        (reply (reply { sessionDataInit with status := Status.stProcessing }
          200 "a" []) 200 "b" [])).2 ++
      (handleWrite idleProcessor false false
        (send false
          (reply (reply { sessionDataInit with status := Status.stProcessing }
            200 "a" []) 200 "b" [])).1).2 ++
      (handleWrite idleProcessor false false
        (handleWrite idleProcessor false false
          (send false
            (reply (reply { sessionDataInit with status := Status.stProcessing }
              200 "a" []) 200 "b" [])).1).1).2 =
      [ioAction.write
        (generateReply { sessionDataInit with status := Status.stProcessing }
          200 "a" []),
       ioAction.write
        (generateReply
          (reply { sessionDataInit with status := Status.stProcessing }
            200 "a" []) 200 "b" [])] :=
  ⟨(C8_write_serialization false false
      { sessionDataInit with writePending := true } sessionDataInit "" []
      0 0 "" "" [] []).1 rfl,
   ((C8_write_serialization false false
      { sessionDataInit with
          status := Status.stProcessing, outboundQueue := ["m"] }
      sessionDataInit "m" [] 0 0 "" "" [] []).2.1 rfl (by decide) rfl).1,
   ((C8_write_serialization false false sessionDataInit
      { sessionDataInit with status := Status.stProcessing } "" []
      200 200 "a" "b" [] []).2.2 rfl rfl rfl rfl (by decide) (by decide)).1⟩

theorem buffer_line (s : sessionData)
    (h : s.status = Status.stRequest ∨ s.status = Status.stStatus ∨
      s.status = Status.stHeader) :
    buffer s = ((getline s.input).1, { s with input := (getline s.input).2 }) := by
  unfold buffer
  rw [if_pos h]

theorem generateReply_congr (s s' : sessionData) (code : Nat) (body : String)
    (hdr : headers) (hH : s'.isHEAD = s.isHEAD) (hO : s'.outbound = s.outbound) :
    generateReply s' code body hdr = generateReply s code body hdr := by
  simp [generateReply, replyHeaders, replyAutoHeaders, hH, hO]

/-- C6: a request or status line advertising protocol version 2.0 or higher
takes the error path out of the read-completion transition even when the line
is otherwise valid: in the server role the synthesized reply enqueued before
returning to `stProcessing` is a 505, a generically malformed request line
yields a 400, and in the client role the session is torn down. -/
theorem C6_version_reject (P : processorHooks) (ec : Bool) (s : sessionData) :
    (s.status = Status.stRequest → s.writePending = false →
      s.outboundQueue = [] →
      (parseRequestLine (getline s.input).1).valid = true →
      versionGE (parseRequestLine (getline s.input).1).version (2, 0) = true →
        (handleRead P ec false s).1.status = Status.stProcessing
      ∧ (handleRead P ec false s).1.closeAfterSend = true
      ∧ (handleRead P ec false s).2 =
          [ioAction.write (generateReply s 505 (statusDescription 505) [])])
  ∧ (s.status = Status.stRequest → s.writePending = false →
      s.outboundQueue = [] →
      (parseRequestLine (getline s.input).1).valid = false →
        (handleRead P ec false s).1.status = Status.stProcessing
      ∧ (handleRead P ec false s).2 =
          [ioAction.write (generateReply s 400 (statusDescription 400) [])])
  ∧ (s.status = Status.stStatus → s.free = false →
      (parseStatusLine (getline s.input).1).valid = true →
      versionGE (parseStatusLine (getline s.input).1).version (2, 0) = true →
        (handleRead P ec false s).1.status = Status.stShutdown
      ∧ (handleRead P ec false s).1.free = true
      ∧ (handleRead P ec false s).2 = [ioAction.shutdownClose]) := by
  refine ⟨?_, ?_, ?_⟩
  · intro hst hw hq hvalid hver
    simp [handleRead, hst, hw, hq, hvalid, hver, buffer_line, errorReply,
      reply, send, generateReply_congr]
    exact generateReply_congr _ _ _ _ _ rfl rfl
  · intro hst hw hq hvalid
    have hver : versionGE (parseRequestLine (getline s.input).1).version (2, 0)
        = false := by
      have : parseRequestLine (getline s.input).1 = invalidRequestLine := by
        unfold parseRequestLine at hvalid ⊢
        split at hvalid <;> simp_all
        split at hvalid <;> simp_all
        split at hvalid <;> simp_all [invalidRequestLine]
      rw [this]
      rfl
    simp [handleRead, hst, hw, hq, hvalid, hver, buffer_line, errorReply,
      reply, send, generateReply_congr]
    exact generateReply_congr _ _ _ _ _ rfl rfl
  · intro hst hfree hvalid hver
    simp [handleRead, hst, hfree, hvalid, hver, buffer_line, recycle, send]

theorem C6_version_reject_witness :
    (handleRead idleProcessor false false
        { sessionDataInit with input := ("GET / HTTP/2.0\r\n").data }).2 =
      [ioAction.write (generateReply
        { sessionDataInit with input := ("GET / HTTP/2.0\r\n").data }
        505 (statusDescription 505) [])]
  ∧ (handleRead idleProcessor false false
        { sessionDataInit with input := ("nonsense\r\n").data }).2 =
      [ioAction.write (generateReply
        { sessionDataInit with input := ("nonsense\r\n").data }
        400 (statusDescription 400) [])]
  ∧ (handleRead idleProcessor false false
        { sessionDataInit with
            status := Status.stStatus,
            input := ("HTTP/2.0 200 OK\r\n").data }).1.free = true :=
  ⟨((C6_version_reject idleProcessor false
      { sessionDataInit with input := ("GET / HTTP/2.0\r\n").data }).1
      rfl rfl rfl (by decide) (by decide)).2.2,
   ((C6_version_reject idleProcessor false
      { sessionDataInit with input := ("nonsense\r\n").data }).2.1
      rfl rfl rfl (by decide)).2,
   ((C6_version_reject idleProcessor false
      { sessionDataInit with
          status := Status.stStatus,
          input := ("HTTP/2.0 200 OK\r\n").data }).2.2
      rfl rfl (by decide) (by decide)).2.1⟩

theorem negotiateLoop_inbound (negFn : String → String → String)
    (t : List (String × String)) (s : sessionData) (bad : Bool) :
    (negotiateLoop negFn t s bad).1.inbound = s.inbound := by
  induction t generalizing s bad with
  | nil => rfl
  | cons p t ih =>
    obtain ⟨k, spec⟩ := p
    simp only [negotiateLoop]
    rw [ih]

theorem negotiateLoop_flag (negFn : String → String → String)
    (t : List (String × String)) (s : sessionData) (bad : Bool) :
    (negotiateLoop negFn t s bad).2 =
      (bad || t.any fun p =>
        decide (negFn ((hdrFind s.inbound.header p.1).getD "") p.2 = "")) := by
  induction t generalizing s bad with
  | nil => simp [negotiateLoop]
  | cons p t ih =>
    obtain ⟨k, spec⟩ := p
    simp only [negotiateLoop]
    rw [ih]
    simp [Bool.or_assoc]

theorem negotiateLoop_negotiated_frame (negFn : String → String → String)
    (t : List (String × String)) (s : sessionData) (bad : Bool) (q : String)
    (h : ∀ p ∈ t, ¬ lowerKey p.1 = lowerKey q) :
    hdrFind (negotiateLoop negFn t s bad).1.negotiated q =
      hdrFind s.negotiated q := by
  induction t generalizing s bad with
  | nil => rfl
  | cons p t ih =>
    obtain ⟨k, spec⟩ := p
    simp only [negotiateLoop]
    rw [ih _ _ (fun r hr => h r (by simp [hr]))]
    rw [hdrFind_hdrSet, if_neg (h (k, spec) (by simp))]

theorem negotiateLoop_negotiated (negFn : String → String → String)
    (t : List (String × String)) (s : sessionData) (bad : Bool)
    (p : String × String) (hp : p ∈ t)
    (hd : t.Pairwise (fun a b => ¬ lowerKey a.1 = lowerKey b.1)) :
    hdrFind (negotiateLoop negFn t s bad).1.negotiated p.1 =
      some (negFn ((hdrFind s.inbound.header p.1).getD "") p.2) := by
  induction t generalizing s bad with
  | nil => cases hp
  | cons q t ih =>
    obtain ⟨k, spec⟩ := q
    rcases List.mem_cons.mp hp with heq | hmem
    · subst heq
      simp only [negotiateLoop]
      rw [negotiateLoop_negotiated_frame negFn t _ _ _
        (fun r hr e => (List.pairwise_cons.mp hd).1 r hr e.symm)]
      rw [hdrFind_hdrSet, if_pos rfl]
    · simp only [negotiateLoop]
      rw [ih _ _ hmem (List.pairwise_cons.mp hd).2]

theorem append_three_ne (a k : String) : a ++ "," ++ k ≠ "" := by
  intro e
  have hlen := congrArg String.length e
  have h1 : (",").length = 1 := rfl
  have h0 : ("").length = 0 := rfl
  rw [String.length_append, String.length_append, h1, h0] at hlen
  omega

theorem negotiateLoop_vary_some (negFn : String → String → String)
    (t : List (String × String)) (s : sessionData) (bad : Bool) (a : String)
    (ha : a ≠ "") (hv : hdrFind s.outbound.header "Vary" = some a)
    (hk : ∀ p ∈ t, ¬ lowerKey p.1 = lowerKey "Vary") :
    hdrFind (negotiateLoop negFn t s bad).1.outbound.header "Vary" =
      some (a ++ commaTail (t.map (·.1))) := by
  induction t generalizing s bad a with
  | nil => simpa [commaTail] using hv
  | cons q t ih =>
    obtain ⟨k, spec⟩ := q
    simp only [negotiateLoop]
    have h1 : hdrFind (hdrAppend s.outbound.header "Vary" k) "Vary" =
        some (a ++ "," ++ k) :=
      hdrFind_hdrAppend_some _ _ _ _ _ rfl hv ha
    have hnext : ∀ ob2,
        hdrFind ob2 "Vary" = some (a ++ "," ++ k) →
        hdrFind (negotiateLoop negFn t
          { s with
              negotiated := hdrSet s.negotiated k
                (negFn ((hdrFind s.inbound.header k).getD "") spec),
              outbound := { s.outbound with header := ob2 } }
          (bad || decide (negFn ((hdrFind s.inbound.header k).getD "") spec = ""))).1.outbound.header
          "Vary" = some (a ++ commaTail (((k, spec) :: t).map (·.1))) := by
      intro ob2 hob
      rw [ih _ _ _ (append_three_ne a k) hob
        (fun r hr => hk r (by simp [hr]))]
      simp [commaTail, String.append_assoc]
    by_cases hacc : lowerKey "Accept" = lowerKey k
    · have hm : hdrFind sendNegotiatedAs k = some "Content-Type" := by
        simp [sendNegotiatedAs, hdrFind, hacc]
      rw [hm]
      exact hnext _ (by rw [hdrFind_hdrSet, if_neg (by decide)]; exact h1)
    · have hm : hdrFind sendNegotiatedAs k = none := by
        simp [sendNegotiatedAs, hdrFind, hacc]
      rw [hm]
      exact hnext _ h1

theorem negotiateLoop_vary (negFn : String → String → String)
    (t : List (String × String)) (s : sessionData) (bad : Bool)
    (hne : ∀ p ∈ t, p.1 ≠ "")
    (hk : ∀ p ∈ t, ¬ lowerKey p.1 = lowerKey "Vary")
    (hv : hdrFind s.outbound.header "Vary" = none) (ht : t ≠ []) :
    hdrFind (negotiateLoop negFn t s bad).1.outbound.header "Vary" =
      some (varyValue (t.map (·.1))) := by
  cases t with
  | nil => cases ht rfl
  | cons q t =>
    obtain ⟨k, spec⟩ := q
    simp only [negotiateLoop]
    have hkne : k ≠ "" := hne (k, spec) (by simp)
    have h1 : hdrFind (hdrAppend s.outbound.header "Vary" k) "Vary" = some k :=
      hdrFind_hdrAppend_none _ _ _ _ rfl hv
    have hnext : ∀ ob2,
        hdrFind ob2 "Vary" = some k →
        hdrFind (negotiateLoop negFn t
          { s with
              negotiated := hdrSet s.negotiated k
                (negFn ((hdrFind s.inbound.header k).getD "") spec),
              outbound := { s.outbound with header := ob2 } }
          (bad || decide (negFn ((hdrFind s.inbound.header k).getD "") spec = ""))).1.outbound.header
          "Vary" = some (varyValue (((k, spec) :: t).map (·.1))) := by
      intro ob2 hob
      rw [negotiateLoop_vary_some negFn t _ _ k hkne hob
        (fun r hr => hk r (by simp [hr]))]
      simp [varyValue]
    by_cases hacc : lowerKey "Accept" = lowerKey k
    · have hm : hdrFind sendNegotiatedAs k = some "Content-Type" := by
        simp [sendNegotiatedAs, hdrFind, hacc]
      rw [hm]
      exact hnext _ (by rw [hdrFind_hdrSet, if_neg (by decide)]; exact h1)
    · have hm : hdrFind sendNegotiatedAs k = none := by
        simp [sendNegotiatedAs, hdrFind, hacc]
      rw [hm]
      exact hnext _ h1

theorem negotiateLoop_ct_frame (negFn : String → String → String)
    (t : List (String × String)) (s : sessionData) (bad : Bool)
    (h : ∀ p ∈ t, ¬ lowerKey "Accept" = lowerKey p.1) :
    hdrFind (negotiateLoop negFn t s bad).1.outbound.header "Content-Type" =
      hdrFind s.outbound.header "Content-Type" := by
  induction t generalizing s bad with
  | nil => rfl
  | cons q t ih =>
    obtain ⟨k, spec⟩ := q
    simp only [negotiateLoop]
    have hacc : ¬ lowerKey "Accept" = lowerKey k := h (k, spec) (by simp)
    have hm : hdrFind sendNegotiatedAs k = none := by
      simp [sendNegotiatedAs, hdrFind, hacc]
    rw [hm]
    rw [ih _ _ (fun r hr => h r (by simp [hr]))]
    exact hdrFind_hdrAppend_ne _ _ _ _ (by decide)

theorem negotiateLoop_ct (negFn : String → String → String)
    (t : List (String × String)) (s : sessionData) (bad : Bool)
    (p : String × String) (hp : p ∈ t)
    (hd : t.Pairwise (fun a b => ¬ lowerKey a.1 = lowerKey b.1))
    (hacc : lowerKey p.1 = lowerKey "Accept") :
    hdrFind (negotiateLoop negFn t s bad).1.outbound.header "Content-Type" =
      some (negFn ((hdrFind s.inbound.header p.1).getD "") p.2) := by
  induction t generalizing s bad with
  | nil => cases hp
  | cons q t ih =>
    obtain ⟨k, spec⟩ := q
    rcases List.mem_cons.mp hp with heq | hmem
    · subst heq
      have hacc' : lowerKey k = lowerKey "Accept" := hacc
      simp only [negotiateLoop]
      have hm : hdrFind sendNegotiatedAs k = some "Content-Type" := by
        simp only [sendNegotiatedAs, hdrFind]
        rw [if_pos hacc'.symm]
      rw [hm]
      rw [negotiateLoop_ct_frame negFn t _ _
        (fun r hr e => (List.pairwise_cons.mp hd).1 r hr (hacc'.trans e))]
      rw [hdrFind_hdrSet, if_pos rfl]
    · have hk : ¬ lowerKey "Accept" = lowerKey k := fun e =>
        (List.pairwise_cons.mp hd).1 p hmem (e.symm.trans hacc.symm)
      simp only [negotiateLoop]
      have hm : hdrFind sendNegotiatedAs k = none := by
        simp [sendNegotiatedAs, hdrFind, hk]
      rw [hm]
      rw [ih _ _ hmem (List.pairwise_cons.mp hd).2]

/-- C7: `negotiate` returns false iff at least one negotiation resolves to an
empty value, and it does not short-circuit: every entry is still processed —
each header name is appended to the outbound `Vary` header, its resolved
value is recorded in `negotiated` (with an absent inbound header negotiated
as the empty client preference), and an `Accept` entry sets the outbound
`Content-Type`. -/
theorem C7_negotiate (negFn : String → String → String) (s : sessionData)
    (ns : headers)
    (hdist : ns.Pairwise (fun a b => ¬ lowerKey a.1 = lowerKey b.1))
    (hne : ∀ p ∈ ns, p.1 ≠ "")
    (hvk : ∀ p ∈ ns, ¬ lowerKey p.1 = lowerKey "Vary")
    (hv0 : hdrFind s.outbound.header "Vary" = none) :
    ((negotiate negFn s ns).2 = false ↔
      ∃ p ∈ ns, negFn ((hdrFind s.inbound.header p.1).getD "") p.2 = "")
  ∧ (∀ p ∈ ns, hdrFind (negotiate negFn s ns).1.negotiated p.1 =
      some (negFn ((hdrFind s.inbound.header p.1).getD "") p.2))
  ∧ (ns ≠ [] → hdrFind (negotiate negFn s ns).1.outbound.header "Vary" =
      some (varyValue (ns.map (·.1))))
  ∧ (∀ p ∈ ns, lowerKey p.1 = lowerKey "Accept" →
      hdrFind (negotiate negFn s ns).1.outbound.header "Content-Type" =
        some (negFn ((hdrFind s.inbound.header p.1).getD "") p.2)) := by
  refine ⟨?_, ?_, ?_, ?_⟩
  · simp only [negotiate]
    rw [negotiateLoop_flag]
    simp [List.any_eq_true]
  · intro p hp
    simp only [negotiate]
    rw [negotiateLoop_negotiated negFn ns _ false p hp hdist]
  · intro hns
    simp only [negotiate]
    rw [negotiateLoop_vary negFn ns { s with negotiated := [] } false hne hvk
      hv0 hns]
  · intro p hp hacc
    simp only [negotiate]
    rw [negotiateLoop_ct negFn ns _ false p hp hdist hacc]

theorem C7_negotiate_witness :
    hdrFind (negotiate (fun cv spec => if cv = "" then spec else cv)
        sessionDataInit [("Accept", "text/html")]).1.negotiated "Accept" =
      some "text/html"
  ∧ hdrFind (negotiate (fun cv spec => if cv = "" then spec else cv)
        sessionDataInit [("Accept", "text/html")]).1.outbound.header "Vary" =
      some "Accept"
  ∧ hdrFind (negotiate (fun cv spec => if cv = "" then spec else cv)
        sessionDataInit
        [("Accept", "text/html")]).1.outbound.header "Content-Type" =
      some "text/html"
  ∧ ((negotiate (fun cv spec => if cv = "" then spec else cv)
        sessionDataInit [("Accept", "text/html")]).2 = false ↔
      ∃ p ∈ [("Accept", "text/html")],
        (fun cv spec => if cv = "" then spec else cv)
          ((hdrFind sessionDataInit.inbound.header p.1).getD "") p.2 = "") := by
  have h := C7_negotiate (fun cv spec => if cv = "" then spec else cv)
    sessionDataInit [("Accept", "text/html")] (by decide) (by decide)
    (by decide) rfl
  exact ⟨h.2.1 ("Accept", "text/html") (by decide), h.2.2.1 (by decide),
    h.2.2.2 ("Accept", "text/html") (by decide) rfl, h.1⟩

end cxxhttp.http
